import Mathlib

/-!
Verification of the generated documentation sidebar index
`target/doc/ink_lang/sidebar-items.js`.

The file consists of a single JavaScript statement:
`initSidebarItems({"attr":[["contract",""]], ...});`
whose argument is a static object literal mapping category names to
arrays of two-element string arrays `[identifier, description]`.

We embed the argument of the call as `sidebarTable` (categories in the
order they appear, entries as `List String` to reflect the JS arrays),
and the file itself as a one-statement program `fileAST` in a small
JavaScript-statement language with an evaluation semantics, so that the
structural and behavioural claims about the artifact can be stated.
-/

namespace SidebarItems

/-- The static table passed to `initSidebarItems`, transcribed verbatim from
`target/doc/ink_lang/sidebar-items.js`: categories in source order, each
entry the JS array `[identifier, description]` as a `List String`. -/
def sidebarTable : List (String × List (List String)) :=
  [ ("attr",
      [ ["contract", ""] ]),
    ("enum",
      [ ["DispatchError", "A dispatch error."],
        ["DispatchMode", "The contract dispatch mode."] ]),
    ("struct",
      [ ["Contract", "The contract definition."],
        ["ContractBuilder", "Simplifies declaration of a smart contract."],
        ["DispatchList", "A list of dispatchers."],
        ["DispatchRetCode", "A return code indicating success or error in a compact form."],
        ["Dispatcher", "Dispatcher for storage preserving messages."],
        ["DispatcherMut", "Dispatcher for potentially storage mutating messages and constructors."],
        ["EnvAccess", "A typed accessor to the environment."],
        ["UnreachableDispatcher", "A dispatcher that shall never dispatch."] ]),
    ("trait",
      [ ["Dispatch", "Types implementing this trait can handle contract calls."],
        ["DispatchUsingMode", "Trait implemented by contracts themselves in order to provide a clean interface for the C-ABI specified `call` and `create` functions to forward calls to."],
        ["Env", "Allows to directly access the environment mutably."],
        ["FnInput", "Dispatchable functions that have inputs."],
        ["FnOutput", "Dispatchable functions that have an output."],
        ["FnSelector", "The selector of dispatchable functions."],
        ["ForwardCall", "Implemented by contracts that are compiled as dependencies."],
        ["ForwardCallMut", "Implemented by contracts that are compiled as dependencies."],
        ["GenerateAbi", "Types implementing this trait can generate their metadata."],
        ["InstantiateTestable", "Trait implemented by contracts to make them testable."],
        ["Message", "Types implementing this are messages that may only read from storage."],
        ["PushDispatcher", "Types able to push another dispatcher to themselves."],
        ["Storage", "Types implementing this trait are storage structs."],
        ["ToAccountId", "Implemented by contracts that are compiled as dependencies."] ]),
    ("type",
      [ ["DispatchResult", "A dispatch result."],
        ["DispatchableFn", "A function with the signature able to handle storage preserving calls of messages or constructors."],
        ["DispatchableFnMut", "A function with the signature able to handle potentially storage mutating calls of messages or constructors."],
        ["EmptyDispatchList", "A simple type definition to view the single unreachable dispatcher as list."] ]) ]

/-- The category keys of the table, in source order. -/
def categoryKeys : List String := sidebarTable.map Prod.fst

/-- The identifier of an entry: the first element of the JS array. -/
def entryIdent (e : List String) : String := e.headD ""

/-- The identifiers of a list of entries, in order. -/
def idents (es : List (List String)) : List String := es.map entryIdent

/-- All identifiers of the whole table, across all categories. -/
def allIdents : List String := (sidebarTable.map (fun kv => idents kv.2)).flatten

/-- An entry is a two-element array. -/
def entryIsPair (e : List String) : Bool := e.length == 2

/-- Both strings of an entry are non-empty. -/
def entryBothNonEmpty (e : List String) : Bool := e.all (fun s => !(s == ""))

/-- The entry is a two-element array whose identifier (first element)
is non-empty. -/
def entryWellFormed (e : List String) : Bool :=
  entryIsPair e && !(entryIdent e == "")

/-- Strict lexicographic order on lists of characters, comparing by
code point (for ASCII strings this is ASCII lexicographic order). -/
def charListLt : List Char → List Char → Bool
  | _, [] => false
  | [], _ :: _ => true
  | a :: as, b :: bs =>
      Nat.blt a.toNat b.toNat || (a.toNat == b.toNat && charListLt as bs)

/-- Strict ASCII lexicographic order on strings. -/
def strLtAscii (a b : String) : Bool := charListLt a.data b.data

/-- A list of strings is strictly ascending in ASCII lexicographic order. -/
def strictlySortedAscii : List String → Bool
  | [] => true
  | [_] => true
  | a :: b :: rest => strLtAscii a b && strictlySortedAscii (b :: rest)

/-! ## A small JavaScript fragment

The artifact is a one-line JavaScript file.  To state the behavioural
claims (single call, no control flow, no mutation, no failure) we embed
the file into a small statement language that *could* express branching,
loops and mutation, and give it an evaluation semantics. -/

/-- JavaScript expressions of the fragment: string literals, array
literals, object literals, and function calls. -/
inductive JSExpr where
  | strLit : String → JSExpr
  | arrLit : List JSExpr → JSExpr
  | objLit : List (String × JSExpr) → JSExpr
  | call : String → JSExpr → JSExpr
  deriving Repr

/-- JavaScript statements of the fragment: expression statements,
variable assignment `x = e`, property assignment `x.k = e`, array append
`x.push(e)`, branching and loops. -/
inductive JSStmt where
  | exprStmt : JSExpr → JSStmt
  | assign : String → JSExpr → JSStmt
  | propAssign : String → String → JSExpr → JSStmt
  | push : String → JSExpr → JSStmt
  | ifStmt : JSExpr → JSStmt → JSStmt → JSStmt
  | whileStmt : JSExpr → JSStmt → JSStmt
  deriving Repr

/-- JavaScript values produced by evaluating the literal expressions. -/
inductive JSValue where
  | str : String → JSValue
  | arr : List JSValue → JSValue
  | obj : List (String × JSValue) → JSValue
  deriving Repr

mutual

/-- Evaluate a static literal expression to a value; a `call` anywhere
inside means the expression is not a static literal and yields `none`. -/
def evalLiteral : JSExpr → Option JSValue
  | .strLit s => some (.str s)
  | .arrLit es => (evalLiteralList es).map .arr
  | .objLit kvs => (evalLiteralKVs kvs).map .obj
  | .call _ _ => none

/-- Evaluate a list of static literal expressions. -/
def evalLiteralList : List JSExpr → Option (List JSValue)
  | [] => some []
  | e :: es =>
      match evalLiteral e, evalLiteralList es with
      | some v, some vs => some (v :: vs)
      | _, _ => none

/-- Evaluate the key/value pairs of a static object literal. -/
def evalLiteralKVs : List (String × JSExpr) → Option (List (String × JSValue))
  | [] => some []
  | (k, e) :: kvs =>
      match evalLiteral e, evalLiteralKVs kvs with
      | some v, some vs => some ((k, v) :: vs)
      | _, _ => none

end

/-- Whether an expression is a static literal (no call inside). -/
def JSExpr.isLiteral (e : JSExpr) : Bool := (evalLiteral e).isSome

/-- Whether a statement is a branching statement. -/
def JSStmt.isBranch : JSStmt → Bool
  | .ifStmt _ _ _ => true
  | _ => false

/-- Whether a statement is a loop. -/
def JSStmt.isLoop : JSStmt → Bool
  | .whileStmt _ _ => true
  | _ => false

/-- Whether a statement assigns to, appends to, or otherwise changes
existing data (variable assignment, property assignment, array push). -/
def JSStmt.mutatesData : JSStmt → Bool
  | .assign _ _ => true
  | .propAssign _ _ _ => true
  | .push _ _ => true
  | _ => false

/-- The runtime state: the table registered by `initSidebarItems` (if
the call has happened) and the variable store. -/
structure JSState where
  registered : Option JSValue
  vars : List (String × JSValue)
  deriving Repr

/-- The initial state: nothing registered, no variables. -/
def initState : JSState := { registered := none, vars := [] }

/-- Reading the sidebar table from the state. -/
def readTable (st : JSState) : Option JSValue := st.registered

/-- Run one statement.  `defs` lists the function names defined by the
host (the documentation-site script).  A call to an undefined function,
a non-literal expression, branching, or looping is an error: the
semantics covers exactly the constructs the artifact may use. -/
def runStmt (defs : List String) (st : JSState) : JSStmt → Except String JSState
  | .exprStmt (.call f arg) =>
      if defs.contains f then
        match evalLiteral arg with
        | some v =>
            .ok (if f == "initSidebarItems" then { st with registered := some v } else st)
        | none => .error "call argument is not a static literal"
      else .error "call to an undefined function"
  | .exprStmt e =>
      match evalLiteral e with
      | some _ => .ok st
      | none => .error "unsupported expression"
  | .assign x e =>
      match evalLiteral e with
      | some v => .ok { st with vars := (x, v) :: st.vars }
      | none => .error "unsupported expression"
  | .propAssign _ _ _ => .error "property assignment not supported"
  | .push _ _ => .error "array push not supported"
  | .ifStmt _ _ _ => .error "branching not supported"
  | .whileStmt _ _ => .error "loops not supported"

/-- Run a list of statements in order, stopping at the first error. -/
def runProgram (defs : List String) (st : JSState) : List JSStmt → Except String JSState
  | [] => .ok st
  | s :: rest =>
      match runStmt defs st s with
      | .ok st₂ => runProgram defs st₂ rest
      | .error msg => .error msg

/-- Encode an entry `[identifier, description]` as a JS array literal. -/
def encodeEntry (e : List String) : JSExpr := .arrLit (e.map .strLit)

/-- Encode the table as the JS object literal of the source file. -/
def encodeTable (t : List (String × List (List String))) : JSExpr :=
  .objLit (t.map (fun kv => (kv.1, .arrLit (kv.2.map encodeEntry))))

/-- The abstract syntax of `sidebar-items.js`: the file is the single
statement `initSidebarItems({...});` whose argument is the object
literal transcribed in `sidebarTable`. -/
def fileAST : List JSStmt :=
  [.exprStmt (.call "initSidebarItems" (encodeTable sidebarTable))]

/-- The value of an entry after evaluation. -/
def entryValue (e : List String) : JSValue := .arr (e.map .str)

/-- The value of the table after evaluation: what the host function
receives at runtime. -/
def tableValue : JSValue :=
  .obj (sidebarTable.map (fun kv => (kv.1, .arr (kv.2.map entryValue))))

/-- Whether a statement is a host-function call. -/
def JSStmt.isCall : JSStmt → Bool
  | .exprStmt (.call _ _) => true
  | _ => false

/-- A successfully executed statement that is not a host-function call
leaves the registered sidebar table unchanged. -/
lemma runStmt_noncall_preserves (defs : List String) (st st₂ : JSState) (s : JSStmt)
    (hc : s.isCall = false) (hr : runStmt defs st s = Except.ok st₂) :
    st₂.registered = st.registered := by
  cases s with
  | exprStmt e =>
      cases e with
      | call f a => simp [JSStmt.isCall] at hc
      | strLit v => simp only [runStmt, evalLiteral] at hr; cases hr; rfl
      | arrLit es =>
          simp only [runStmt] at hr
          cases hev : evalLiteral (.arrLit es) with
          | none => rw [hev] at hr; cases hr
          | some v => rw [hev] at hr; cases hr; rfl
      | objLit kvs =>
          simp only [runStmt] at hr
          cases hev : evalLiteral (.objLit kvs) with
          | none => rw [hev] at hr; cases hr
          | some v => rw [hev] at hr; cases hr; rfl
  | assign x e =>
      simp only [runStmt] at hr
      cases hev : evalLiteral e with
      | none => rw [hev] at hr; cases hr
      | some v => rw [hev] at hr; cases hr; rfl
  | propAssign x k e => simp [runStmt] at hr
  | push x e => simp [runStmt] at hr
  | ifStmt c t f => simp [runStmt] at hr
  | whileStmt c b => simp [runStmt] at hr

/-- Running any list of statements that contains no host-function call
leaves the registered sidebar table unchanged. -/
lemma runProgram_noncall_preserves (defs : List String) (rest : List JSStmt) :
    ∀ st st₂ : JSState, rest.all (fun s => ! s.isCall) = true →
      runProgram defs st rest = Except.ok st₂ →
      st₂.registered = st.registered := by
  induction rest with
  | nil =>
      intro st st₂ _ hr
      simp only [runProgram] at hr
      cases hr; rfl
  | cons s rest ih =>
      intro st st₂ hall hr
      simp only [List.all_cons, Bool.and_eq_true, Bool.not_eq_true'] at hall
      obtain ⟨hc, hrest⟩ := hall
      simp only [runProgram] at hr
      cases hrs : runStmt defs st s with
      | error m => rw [hrs] at hr; cases hr
      | ok stm =>
          rw [hrs] at hr
          have h1 := runStmt_noncall_preserves defs st stm s hc hrs
          have h2 := ih stm st₂ (by simpa using hrest) hr
          rw [h2, h1]

/-! ## The claims -/

/-- C1 (counterexample): it is not the case that every entry of every
category is a two-element pair of two non-empty strings — the sole
"attr" entry `["contract", ""]` has an empty description. -/
theorem c1_counterexample :
    ¬ (∀ kv ∈ sidebarTable, ∀ e ∈ kv.2,
        entryIsPair e = true ∧ entryBothNonEmpty e = true) := by decide

/-- C1 (amended): in the static table passed to `initSidebarItems`, for
every category present, every entry is a two-element pair
(identifier, description) whose identifier is non-empty; the
description may be the empty string. -/
theorem c1_entries_pair_with_nonempty_ident :
    sidebarTable.all (fun kv => kv.2.all entryWellFormed) = true := by decide

/-- C2: for every category in the table passed to `initSidebarItems`,
the identifiers (first elements of the pairs) within that category are
pairwise distinct. -/
theorem c2_idents_unique_within_category :
    ∀ kv ∈ sidebarTable, (idents kv.2).Nodup := by decide

/-- C2 witness: the theorem applied to the concrete "attr" category of
the table. -/
theorem c2_idents_unique_within_category_witness :
    (idents [["contract", ""]]).Nodup :=
  c2_idents_unique_within_category ("attr", [["contract", ""]]) (by decide)

/-- C3 (counterexample): the table passed to `initSidebarItems` has five
category keys, not four. -/
theorem c3_counterexample :
    categoryKeys.length = 5 ∧ categoryKeys.length ≠ 4 := by decide

/-- C3 (amended): the table passed to `initSidebarItems` is a mapping
from exactly five fixed category keys — "attr", "enum", "struct",
"trait", "type" — to ordered sequences of two-element
(name, description) pairs. -/
theorem c3_five_fixed_keys_of_pairs :
    categoryKeys = ["attr", "enum", "struct", "trait", "type"] ∧
    sidebarTable.all (fun kv => kv.2.all entryIsPair) = true := by decide

/-- C4: every category key of the table passed to `initSidebarItems` is
one of the five names "attr", "enum", "struct", "trait", "type", and
each key maps to a list of (identifier, description) pairs. -/
theorem c4_keys_among_the_five_names :
    categoryKeys.all
        (fun k => ["attr", "enum", "struct", "trait", "type"].contains k) = true ∧
    sidebarTable.all (fun kv => kv.2.all entryIsPair) = true := by decide

/-- C5: the artifact is the single statement
`initSidebarItems({...});` whose argument is the fixed literal table;
the file contains no other statement, no branching, no loop, no
mutation, and the argument is a static literal evaluating to
`tableValue`. -/
theorem c5_single_static_call :
    fileAST = [JSStmt.exprStmt (JSExpr.call "initSidebarItems" (encodeTable sidebarTable))] ∧
    fileAST.length = 1 ∧
    fileAST.all (fun s => ! s.isBranch && ! s.isLoop && ! s.mutatesData) = true ∧
    (encodeTable sidebarTable).isLiteral = true ∧
    evalLiteral (encodeTable sidebarTable) = some tableValue :=
  ⟨rfl, rfl, rfl, rfl, rfl⟩

/-- C6: no statement of the artifact mutates data; running the artifact
registers the table value, and any further host-call-free statements
leave every later read of the table yielding that same value. -/
theorem c6_table_never_mutated (defs : List String)
    (h : defs.contains "initSidebarItems" = true) :
    fileAST.all (fun s => ! s.mutatesData) = true ∧
    ∃ st, runProgram defs initState fileAST = Except.ok st ∧
      readTable st = some tableValue ∧
      ∀ rest st₂, rest.all (fun s => ! s.isCall) = true →
        runProgram defs st rest = Except.ok st₂ →
        readTable st₂ = some tableValue := by
  refine ⟨rfl, { registered := some tableValue, vars := [] }, ?_, rfl, ?_⟩
  · simp only [fileAST, runProgram, runStmt]
    rw [h]
    rfl
  · intro rest st₂ hall hr
    have := runProgram_noncall_preserves defs rest _ st₂ hall hr
    simpa [readTable] using this

/-- C6 witness: the theorem applied to the host environment that defines
exactly `initSidebarItems`. -/
theorem c6_table_never_mutated_witness :
    fileAST.all (fun s => ! s.mutatesData) = true ∧
    ∃ st, runProgram ["initSidebarItems"] initState fileAST = Except.ok st ∧
      readTable st = some tableValue ∧
      ∀ rest st₂, rest.all (fun s => ! s.isCall) = true →
        runProgram ["initSidebarItems"] st rest = Except.ok st₂ →
        readTable st₂ = some tableValue :=
  c6_table_never_mutated ["initSidebarItems"] (by decide)

/-- C7: under the precondition that `initSidebarItems` is a defined host
function, evaluating the artifact is total and reaches no error
branch. -/
theorem c7_evaluation_cannot_fail (defs : List String)
    (h : defs.contains "initSidebarItems" = true) :
    (runProgram defs initState fileAST).isOk = true := by
  simp only [fileAST, runProgram, runStmt]
  rw [h]
  rfl

/-- C7 witness: the theorem applied to the host environment that defines
exactly `initSidebarItems`. -/
theorem c7_evaluation_cannot_fail_witness :
    (runProgram ["initSidebarItems"] initState fileAST).isOk = true :=
  c7_evaluation_cannot_fail ["initSidebarItems"] (by decide)

/-- C8: within every category of the table passed to
`initSidebarItems`, the entries are sorted in strictly ascending ASCII
lexicographic order of their identifiers; in particular "DispatchList"
sorts before "Dispatcher" and "DispatchResult" before
"DispatchableFn". -/
theorem c8_idents_sorted_ascii :
    sidebarTable.all (fun kv => strictlySortedAscii (idents kv.2)) = true ∧
    strLtAscii "DispatchList" "Dispatcher" = true ∧
    strLtAscii "DispatchResult" "DispatchableFn" = true := by decide

/-- C9: the identifiers in the table passed to `initSidebarItems` are
pairwise distinct across the entire table, not only within each
category. -/
theorem c9_idents_distinct_across_table : allIdents.Nodup := by decide

/-- C10: every identifier in the table passed to `initSidebarItems` is
a non-empty string, while a description may be the empty string, as it
is for the sole "attr" entry `["contract", ""]`. -/
theorem c10_idents_nonempty_descriptions_may_be_empty :
    allIdents.all (fun s => ! (s == "")) = true ∧
    sidebarTable.lookup "attr" = some [["contract", ""]] := by decide

end SidebarItems
